import Mathlib

/-!
Shallow embedding of the tiktok-discord-scraper repository.

Source files embedded:
- data_processor.py      (filter_profiles)
- tiktok_scraper.py      (get_trending_profiles)
- discord_poster.py      (post_profile_to_discord)
- python-version/main.py (run_scraper_and_poster)

Python dictionaries are modelled as association lists over a small universe
of Python values (ints, strings, None).  External collaborators (TikTokApi,
discord.py) are modelled as oracle parameters: the stream of trending videos
is an input list, the Discord client's observable behaviour is a record of
step outcomes.  Python exceptions are modelled with Except or an explicit
raised flag.
-/

namespace TikTokDiscord

/-- Universe of Python values that flow through the program: integers,
strings and None.  (The comparisons the code performs raise TypeError on
None, which the embedding mirrors.) -/
inductive PyVal where
  | vInt (n : Int)
  | vStr (s : String)
  | vNone
deriving DecidableEq, Repr

/-- A Python dict (profile record, author record) as an association list. -/
abbrev PyDict : Type := List (String × PyVal)

/-- Python d.get(k) without default: Some value if the key is present. -/
def dictLookup (d : PyDict) (k : String) : Option PyVal :=
  match d with
  | [] => none
  | (k', v) :: rest => if k' = k then some v else dictLookup rest k

/-- Python d.get(k) (default None): the stored value, or None when absent. -/
def dictGet (d : PyDict) (k : String) : PyVal :=
  (dictLookup d k).getD PyVal.vNone

/-- Python truthiness of the values in our universe: None is falsy, an int
is truthy iff nonzero, a string is truthy iff nonempty. -/
def truthy : PyVal → Bool
  | PyVal.vNone => false
  | PyVal.vInt n => n != 0
  | PyVal.vStr s => s.length != 0

/-- Python `a or b`: a if a is truthy, else b. -/
def pyOr (a b : PyVal) : PyVal :=
  if truthy a then a else b

/-- Digits of a Python int literal after the optional sign: a nonempty
digit run in which single underscores may separate digits. -/
def pyDigits : Nat → List Char → Option Nat
  | acc, [] => some acc
  | acc, '_' :: c :: rest =>
      if c.isDigit then pyDigits (10 * acc + (c.toNat - 48)) rest else none
  | _, ['_'] => none
  | acc, c :: rest =>
      if c.isDigit then pyDigits (10 * acc + (c.toNat - 48)) rest else none

/-- Digit run must start with a digit (no leading underscore, nonempty). -/
def pyDigitsStart : List Char → Option Nat
  | [] => none
  | c :: rest =>
      if c.isDigit then pyDigits (c.toNat - 48) rest else none

/-- Strip whitespace from both ends of a character list. -/
def stripWS (l : List Char) : List Char :=
  ((l.dropWhile Char.isWhitespace).reverse.dropWhile Char.isWhitespace).reverse

/-- Python int(s) for a string s: strip whitespace, optional sign, digits
(with underscores between digits); none models a ValueError. -/
def pyIntOfString (s : String) : Option Int :=
  match stripWS s.toList with
  | '+' :: rest => (pyDigitsStart rest).map Int.ofNat
  | '-' :: rest => (pyDigitsStart rest).map (fun n => -(Int.ofNat n))
  | l => (pyDigitsStart l).map Int.ofNat

/-! ## data_processor.py -/

/-- Key of the follower-count field of a profile record. -/
def kFollowerCount : String := "follower_count"

/-- The body of the for-loop in filter_profiles: read follower_count with
default 0, coerce a string via int() with ValueError giving 0, then compare
with min_followers.  Comparing None (or a value int() left as a string)
against an int raises TypeError, modelled as Except.error. -/
def filterLoop (min_followers : Int) :
    List PyDict → List PyDict → Except Unit (List PyDict)
  | [], filtered => Except.ok filtered
  | profile :: rest, filtered =>
      let follower_count := (dictLookup profile kFollowerCount).getD (PyVal.vInt 0)
      let follower_count :=
        match follower_count with
        | PyVal.vStr s => PyVal.vInt ((pyIntOfString s).getD 0)
        | v => v
      match follower_count with
      | PyVal.vInt n =>
          if min_followers ≤ n then filterLoop min_followers rest (filtered ++ [profile])
          else filterLoop min_followers rest filtered
      | _ => Except.error ()

/-- data_processor.filter_profiles.  The threshold argument is an optional
string (None models a missing value; int(None) raises TypeError, caught by
the except clause together with ValueError, falling back to 0). -/
def filter_profiles (profiles : List PyDict) (min_followers_str : Option String) :
    Except Unit (List PyDict) :=
  let min_followers : Int :=
    match min_followers_str with
    | none => 0
    | some s => (pyIntOfString s).getD 0
  filterLoop min_followers profiles []

/-- The coerced follower count of a record as filter_profiles computes it
for well-typed records: absent gives 0, an unparseable string gives 0. -/
def coercedFC (p : PyDict) : Int :=
  match (dictLookup p kFollowerCount).getD (PyVal.vInt 0) with
  | PyVal.vInt n => n
  | PyVal.vStr s => (pyIntOfString s).getD 0
  | PyVal.vNone => 0

/-- A record is well-typed for the filter when its follower_count field, if
present, is an int or a string (the shapes the data model allows). -/
def wellFormedFC (p : PyDict) : Bool :=
  match dictLookup p kFollowerCount with
  | some PyVal.vNone => false
  | _ => true

/-- The threshold value filter_profiles ends up using. -/
def parsedMin (min_followers_str : Option String) : Int :=
  match min_followers_str with
  | none => 0
  | some s => (pyIntOfString s).getD 0

/-! ## tiktok_scraper.py -/

/-- One event of the async iteration over api.trending.videos: either a
video (represented by its author.as_dict) or an exception raised by the
iteration / the underlying network client. -/
inductive FeedItem where
  | video (author : PyDict)
  | raiseExc
deriving DecidableEq, Repr

/-- Key of the id field of an extracted profile record. -/
def kId : String := "id"

/-- Key of the username field of a profile record. -/
def kUsername : String := "username"

/-- Source key for the author's unique handle. -/
def kUniqueId : String := "uniqueId"

/-- Source key for the author's display name. -/
def kNickname : String := "nickname"

/-- Source key for the author's bio text. -/
def kSignature : String := "signature"

/-- Source key for the author's follower count. -/
def kSrcFollower : String := "followerCount"

/-- Source key for the author's like count. -/
def kSrcHeart : String := "heartCount"

/-- Source key for the author's video count. -/
def kSrcVideo : String := "videoCount"

/-- Source key for the author's avatar URL. -/
def kSrcAvatar : String := "avatarLarger"

/-- Base of the profile URL built in profile_data. -/
def urlBase : String := "https://www.tiktok.com/@"

/-- author.get('id') or author.get('uniqueId'). -/
def profileId (author : PyDict) : PyVal :=
  pyOr (dictGet author kId) (dictGet author kUniqueId)

/-- str(x) as the f-string in profile_url applies it. -/
def pyStr : PyVal → String
  | PyVal.vInt n => toString n
  | PyVal.vStr s => s
  | PyVal.vNone => "None"

/-- The profile_data dict built for one author inside the loop. -/
def profileData (profile_id : PyVal) (author : PyDict) : PyDict :=
  [(kId, profile_id),
   (kUsername, dictGet author kUniqueId),
   (kNickname, dictGet author kNickname),
   ("bio", dictGet author kSignature),
   (kFollowerCount, dictGet author kSrcFollower),
   ("heart_count", dictGet author kSrcHeart),
   ("video_count", dictGet author kSrcVideo),
   ("profile_url", PyVal.vStr (urlBase ++ pyStr (dictGet author kUniqueId))),
   ("avatar_url", dictGet author kSrcAvatar)]

/-- Keys of the insertion-ordered unique_profiles dict. -/
def keys (ups : List (PyVal × PyDict)) : List PyVal :=
  ups.map Prod.fst

/-- The async for loop of get_trending_profiles over the video feed,
threading the insertion-ordered unique_profiles dict; the Bool records
whether the iteration raised (the exception is caught by the caller).
New ids are inserted when truthy and not yet present; after each item the
loop breaks once len(unique_profiles) >= count. -/
def scrapeBody (count : Nat) :
    List FeedItem → List (PyVal × PyDict) → List (PyVal × PyDict) × Bool
  | [], ups => (ups, false)
  | FeedItem.raiseExc :: _, ups => (ups, true)
  | FeedItem.video author :: rest, ups =>
      let profile_id := profileId author
      let ups' :=
        if truthy profile_id = true ∧ profile_id ∉ keys ups then
          ups ++ [(profile_id, profileData profile_id author)]
        else ups
      if count ≤ ups'.length then (ups', false)
      else scrapeBody count rest ups'

/-- tiktok_scraper.get_trending_profiles.  sessionsOk models whether
api.create_sessions succeeds (its failure is the first way into the except
branch, with unique_profiles still empty); the feed is the stream of videos
the external API yields.  The surrounding try/except discards the raised
flag and the function returns list(unique_profiles.values()). -/
def get_trending_profiles (sessionsOk : Bool) (feed : List FeedItem) (count : Nat) :
    List PyDict :=
  if sessionsOk then ((scrapeBody count feed []).1).map Prod.snd
  else []

/-- FeedItem that is a video (not a raised exception). -/
def isVideo : FeedItem → Bool
  | FeedItem.video _ => true
  | FeedItem.raiseExc => false

/-! ## discord_poster.py -/

/-- Outcome of one discord.py API step inside on_ready: success, a
discord.Forbidden, a discord.HTTPException, or any other exception.  All
non-ok outcomes are caught by the surrounding try/except in on_ready. -/
inductive StepOutcome where
  | ok
  | forbidden
  | httpExc
  | otherExc
deriving DecidableEq, Repr

/-- Observable behaviour of the external Discord world for one call of
post_profile_to_discord: presence of DISCORD_BOT_TOKEN, whether bot.start
raises LoginFailure or another exception, whether int(channel_id) parses,
whether bot.get_channel finds the channel, whether building the embed
raises, and the outcomes of channel.create_thread and thread.send. -/
structure DiscordEnv where
  token : Option String
  loginFailure : Bool
  startOtherError : Bool
  channelIdParses : Bool
  channelFound : Bool
  embedOk : Bool
  threadOutcome : StepOutcome
  sendOutcome : StepOutcome
deriving DecidableEq, Repr

/-- Result of one call of post_profile_to_discord: the returned Bool, plus
the ghost observation of whether the message was actually confirmed sent
to the created thread. -/
structure PostResult where
  retval : Bool
  messageSent : Bool
deriving DecidableEq, Repr

/-- The body of the on_ready handler: runs the channel lookup, embed
construction, thread creation and send inside try/except (every exception
is caught and logged, then finally bot.close() runs).  Returns whether the
message was confirmed sent. -/
def onReadyBody (e : DiscordEnv) : Bool :=
  if e.channelIdParses = false then false
  else if e.channelFound = false then false
  else if e.embedOk = false then false
  else
    match e.threadOutcome with
    | StepOutcome.ok =>
        match e.sendOutcome with
        | StepOutcome.ok => true
        | _ => false
    | _ => false

/-- discord_poster.post_profile_to_discord.  Returns False when the token
is missing, when bot.start raises LoginFailure, or when bot.start raises
any other exception; in every other case bot.start runs on_ready (which
swallows its own errors and closes the bot) and the function returns
True. -/
def post_profile_to_discord (e : DiscordEnv) : PostResult :=
  match e.token with
  | none => PostResult.mk false false
  | some _ =>
      if e.loginFailure = true then PostResult.mk false false
      else if e.startOtherError = true then PostResult.mk false false
      else PostResult.mk true (onReadyBody e)

/-! ## python-version/main.py -/

/-- Result of one publish attempt as the orchestrator's loop sees it: the
collaborator returns a Bool, or raises an exception. -/
inductive PublishResult where
  | ok (b : Bool)
  | exn
deriving DecidableEq, Repr

/-- State the publish loop has produced: the profiles for which a publish
was attempted (in call order), the Bool outcome of each attempt, the
posted_profiles success set (insertion order), and whether an exception
escaped the loop (the loop has no try/except around the publish call, and
profile['username'] raises KeyError when the key is absent). -/
structure LoopState where
  attempts : List PyDict
  outcomes : List Bool
  posted : List PyVal
  raised : Bool
deriving DecidableEq, Repr

/-- The for-loop over filtered_profiles in run_scraper_and_poster.  The
publisher oracle is indexed by the number of publish calls already made,
so a schedule such as fail-then-succeed is expressible. -/
def publishLoop (pub : Nat → PyDict → PublishResult) :
    List PyDict → List PyDict → List Bool → List PyVal → LoopState
  | [], attempts, outcomes, posted => LoopState.mk attempts outcomes posted false
  | profile :: rest, attempts, outcomes, posted =>
      match dictLookup profile kUsername with
      | none => LoopState.mk attempts outcomes posted true
      | some username =>
          if username ∈ posted then publishLoop pub rest attempts outcomes posted
          else
            match pub attempts.length profile with
            | PublishResult.exn =>
                LoopState.mk (attempts ++ [profile]) outcomes posted true
            | PublishResult.ok success =>
                if success then
                  publishLoop pub rest (attempts ++ [profile]) (outcomes ++ [true])
                    (posted ++ [username])
                else
                  publishLoop pub rest (attempts ++ [profile]) (outcomes ++ [false]) posted

/-- Environment variable names read by run_scraper_and_poster. -/
def kBotToken : String := "DISCORD_BOT_TOKEN"

/-- Environment variable holding the destination channel id. -/
def kChannelId : String := "DISCORD_CHANNEL_ID"

/-- Environment variable holding the follower threshold. -/
def kMinFollowers : String := "MIN_FOLLOWERS"

/-- Default threshold used when MIN_FOLLOWERS is absent. -/
def defaultMin : String := "100000"

/-- Observable result of one orchestrator run: how many times the scraper
collaborator was invoked, which profiles publish was called on, the final
success set, and whether an uncaught exception escaped the run. -/
structure RunResult where
  scrapeCalls : Nat
  publishAttempts : List PyDict
  posted : List PyVal
  raised : Bool
deriving DecidableEq, Repr

/-- python-version/main.run_scraper_and_poster.  env models os.environ;
sessionsOk and feed are the scraper's oracle inputs (count 50 as in the
source); pub is the publisher oracle.  Config checks run before any
collaborator call; filter_profiles raising TypeError is uncaught, as is an
exception escaping the publish loop. -/
def run_scraper_and_poster (env : String → Option String) (sessionsOk : Bool)
    (feed : List FeedItem) (pub : Nat → PyDict → PublishResult) : RunResult :=
  let discord_channel_id := env kChannelId
  let min_followers_str := (env kMinFollowers).getD defaultMin
  if env kBotToken = none then RunResult.mk 0 [] [] false
  else if discord_channel_id = none then RunResult.mk 0 [] [] false
  else
    let raw_profiles := get_trending_profiles sessionsOk feed 50
    match filter_profiles raw_profiles (some min_followers_str) with
    | Except.error _ => RunResult.mk 1 [] [] true
    | Except.ok filtered =>
        if filtered = [] then RunResult.mk 1 [] [] false
        else
          let st := publishLoop pub filtered [] [] []
          RunResult.mk 1 st.attempts st.posted st.raised

/-! ## Concrete inputs used by witnesses and counterexamples -/

/-- Record with an int follower count. -/
def recInt (n : Int) : PyDict := [(kFollowerCount, PyVal.vInt n)]

/-- Record with a string follower count. -/
def recStr (s : String) : PyDict := [(kFollowerCount, PyVal.vStr s)]

/-- Record whose follower count is None. -/
def recNone : PyDict := [(kFollowerCount, PyVal.vNone)]

/-- Author record with id, handle and follower count. -/
def authorA : PyDict :=
  [(kId, PyVal.vStr "a1"), (kUniqueId, PyVal.vStr "alice"), (kSrcFollower, PyVal.vInt 200000)]

/-- Author record with only a handle (id absent, handle truthy). -/
def authorB : PyDict := [(kUniqueId, PyVal.vStr "bob"), (kSrcFollower, PyVal.vInt 99)]

/-- Author sharing authorA's id but with a different handle. -/
def authorDupA : PyDict := [(kId, PyVal.vStr "a1"), (kUniqueId, PyVal.vStr "alice2")]

/-- Author with neither a truthy id nor a truthy uniqueId. -/
def authorNoId : PyDict := [(kId, PyVal.vNone), (kUniqueId, PyVal.vStr "")]

/-- The profile record the scraper extracts from authorA. -/
def profA : PyDict := profileData (profileId authorA) authorA

/-- Minimal profile with username u1. -/
def profU1 : PyDict := [(kUsername, PyVal.vStr "u1")]

/-- Minimal profile with username u2. -/
def profU2 : PyDict := [(kUsername, PyVal.vStr "u2")]

/-- A second record with username u1 (a duplicate within one batch). -/
def profU1b : PyDict := [(kUsername, PyVal.vStr "u1"), ("bio", PyVal.vStr "second")]

/-- Publisher that always succeeds. -/
def pubAlwaysTrue : Nat → PyDict → PublishResult := fun _ _ => PublishResult.ok true

/-- Publisher that always raises. -/
def pubAlwaysExn : Nat → PyDict → PublishResult := fun _ _ => PublishResult.exn

/-- Publisher that fails the first call and succeeds afterwards. -/
def pubFailThenOk : Nat → PyDict → PublishResult := fun n _ => PublishResult.ok (n != 0)

/-- Environment with nothing set. -/
def envEmpty : String → Option String := fun _ => none

/-- Discord world: valid token and login, channel id parses but the bot
cannot resolve the destination channel. -/
def envChannelMissing : DiscordEnv :=
  DiscordEnv.mk (some "tok") false false true false true StepOutcome.ok StepOutcome.ok

/-- Discord world: valid token and login, destination found, but thread
creation is rejected with a permission error. -/
def envForbidden : DiscordEnv :=
  DiscordEnv.mk (some "tok") false false true true true StepOutcome.forbidden StepOutcome.ok

/-- Effect of processing one video on the unique_profiles dict (the body
of the async for loop before the break check). -/
def scrapeStep (author : PyDict) (ups : List (PyVal × PyDict)) : List (PyVal × PyDict) :=
  if truthy (profileId author) = true ∧ profileId author ∉ keys ups then
    ups ++ [(profileId author, profileData (profileId author) author)]
  else ups

/-- The entry kp of the unique_profiles dict stems from the first video in
the feed whose (truthy) profile id equals kp's key, and kp's value is the
profile_data extracted from that video's author. -/
def firstOccAt (feed : List FeedItem) (kp : PyVal × PyDict) : Prop :=
  ∃ l₁ a l₂, feed = l₁ ++ FeedItem.video a :: l₂ ∧
    profileId a = kp.1 ∧ truthy kp.1 = true ∧ kp.2 = profileData kp.1 a ∧
    ∀ b, FeedItem.video b ∈ l₁ → profileId b ≠ kp.1

end TikTokDiscord

namespace TikTokDiscord

/-! ## Lemmas about filter_profiles -/

/-- One step of the filter loop on a well-typed record reduces to a test
of the coerced follower count. -/
theorem filterLoop_cons (m : Int) (p : PyDict) (rest acc : List PyDict)
    (hp : wellFormedFC p = true) :
    filterLoop m (p :: rest) acc =
      if m ≤ coercedFC p then filterLoop m rest (acc ++ [p])
      else filterLoop m rest acc := by
  cases hl : dictLookup p kFollowerCount with
  | none => simp [filterLoop, hl, coercedFC]
  | some v =>
      cases v with
      | vInt n => simp [filterLoop, hl, coercedFC]
      | vStr s => simp [filterLoop, hl, coercedFC]
      | vNone => simp [wellFormedFC, hl] at hp

/-- On a list of well-typed records the filter loop returns the filtered
records appended to the accumulator, in order, never an error. -/
theorem filterLoop_wf (m : Int) :
    ∀ (ps acc : List PyDict), (∀ p ∈ ps, wellFormedFC p = true) →
      filterLoop m ps acc =
        Except.ok (acc ++ ps.filter (fun p => decide (m ≤ coercedFC p))) := by
  intro ps
  induction ps with
  | nil => intro acc _; simp [filterLoop]
  | cons p rest ih =>
      intro acc h
      have hp : wellFormedFC p = true := h p (by simp)
      have hrest : ∀ q ∈ rest, wellFormedFC q = true := by
        intro q hq; exact h q (by simp [hq])
      rw [filterLoop_cons m p rest acc hp]
      by_cases hm : m ≤ coercedFC p
      · rw [if_pos hm, ih (acc ++ [p]) hrest]
        simp [List.filter_cons, hm]
      · rw [if_neg hm, ih acc hrest]
        simp [List.filter_cons, hm]

/-- filter_profiles unfolded to the loop with the parsed threshold. -/
theorem filter_profiles_eq_loop (ps : List PyDict) (t : Option String) :
    filter_profiles ps t = filterLoop (parsedMin t) ps [] := by
  cases t <;> rfl

/-- C1: for every list of profile records (follower_count absent, int or
string, as the data model allows) and every threshold, filter_profiles
returns exactly the input records whose coerced follower_count — absent
coerced to 0 — is greater than or equal to the coerced threshold
(inclusive boundary), in the input's relative order. -/
theorem filter_returns_exactly_matching (ps : List PyDict) (t : Option String)
    (h : ∀ p ∈ ps, wellFormedFC p = true) :
    filter_profiles ps t =
      Except.ok (ps.filter (fun p => decide (parsedMin t ≤ coercedFC p))) := by
  rw [filter_profiles_eq_loop, filterLoop_wf (parsedMin t) ps [] h]
  simp

/-- Witness for C1 at a concrete input: an int record above the threshold,
a string record below it, and a record with the field absent. -/
theorem filter_returns_exactly_matching_witness :
    (∀ p ∈ [recInt 150000, recStr "99", ([] : PyDict)], wellFormedFC p = true) ∧
    filter_profiles [recInt 150000, recStr "99", ([] : PyDict)] (some "100000") =
      Except.ok (([recInt 150000, recStr "99", ([] : PyDict)]).filter
        (fun p => decide (parsedMin (some "100000") ≤ coercedFC p))) :=
  ⟨by decide, filter_returns_exactly_matching _ _ (by decide)⟩

/-- C7 is a code bug: filter_profiles is claimed never to raise, but on a
record whose follower_count is None (a value the repository's own scraper
produces when the source omits followerCount) the comparison None >= 0
raises TypeError.  This theorem evaluates the code at the failing input. -/
theorem filter_typeerror_on_none :
    filter_profiles [recNone] (some "0") = Except.error () := by
  rfl

/-- C8: with a non-parseable threshold (absent, empty or non-numeric)
filter_profiles returns the same result as with threshold "0"; and on
data-model profile records (well-typed, non-negative coerced counts) that
means all profiles are returned. -/
theorem nan_threshold_same_as_zero (ps : List PyDict) (t : Option String)
    (hbad : t.bind pyIntOfString = none) :
    filter_profiles ps t = filter_profiles ps (some "0")
      ∧ ((∀ p ∈ ps, wellFormedFC p = true ∧ 0 ≤ coercedFC p) →
          filter_profiles ps t = Except.ok ps) := by
  have h0 : parsedMin t = 0 := by
    cases t with
    | none => rfl
    | some s =>
        simp only [Option.bind] at hbad
        simp [parsedMin, hbad]
  have h0' : parsedMin (some "0") = 0 := by rfl
  constructor
  · rw [filter_profiles_eq_loop, filter_profiles_eq_loop, h0, h0']
  · intro h
    rw [filter_profiles_eq_loop, h0,
      filterLoop_wf 0 ps [] (fun p hp => (h p hp).1)]
    simp only [List.nil_append, Except.ok.injEq]
    apply List.filter_eq_self.mpr
    intro p hp
    exact decide_eq_true (h p hp).2

/-- Witness for C8 at a concrete input: a non-numeric threshold over one
record with follower count 5. -/
theorem nan_threshold_same_as_zero_witness :
    ((some "not-a-number" : Option String).bind pyIntOfString = none) ∧
    (filter_profiles [recInt 5] (some "not-a-number") =
        filter_profiles [recInt 5] (some "0")
      ∧ ((∀ p ∈ [recInt 5], wellFormedFC p = true ∧ 0 ≤ coercedFC p) →
          filter_profiles [recInt 5] (some "not-a-number") = Except.ok [recInt 5])) :=
  ⟨by rfl, nan_threshold_same_as_zero _ _ (by rfl)⟩

/-! ## Lemmas about the publish loop -/

/-- Processing a concatenation: process the front, and unless it raised,
continue with the back from the reached state. -/
theorem publishLoop_append (pub : Nat → PyDict → PublishResult) :
    ∀ (l₁ l₂ : List PyDict) (a : List PyDict) (o : List Bool) (s : List PyVal),
      publishLoop pub (l₁ ++ l₂) a o s =
        if (publishLoop pub l₁ a o s).raised then publishLoop pub l₁ a o s
        else
          publishLoop pub l₂ (publishLoop pub l₁ a o s).attempts
            (publishLoop pub l₁ a o s).outcomes (publishLoop pub l₁ a o s).posted := by
  intro l₁
  induction l₁ with
  | nil => intro l₂ a o s; simp [publishLoop]
  | cons p rest ih =>
      intro l₂ a o s
      simp only [List.cons_append, publishLoop]
      cases hu : dictLookup p kUsername with
      | none => simp
      | some u =>
          by_cases hm : u ∈ s
          · simp only [if_pos hm]
            exact ih l₂ a o s
          · simp only [if_neg hm]
            cases hp : pub a.length p with
            | exn => simp
            | ok b =>
                cases b
                · exact ih l₂ (a ++ [p]) (o ++ [false]) s
                · exact ih l₂ (a ++ [p]) (o ++ [true]) (s ++ [u])

/-- The attempts list only grows: everything already in the accumulator is
in the final attempts list. -/
theorem publishLoop_attempts_mono (pub : Nat → PyDict → PublishResult) :
    ∀ (l : List PyDict) (a : List PyDict) (o : List Bool) (s : List PyVal) (x : PyDict),
      x ∈ a → x ∈ (publishLoop pub l a o s).attempts := by
  intro l
  induction l with
  | nil => intro a o s x hx; simpa [publishLoop] using hx
  | cons p rest ih =>
      intro a o s x hx
      simp only [publishLoop]
      cases hu : dictLookup p kUsername with
      | none => simpa using hx
      | some u =>
          by_cases hm : u ∈ s
          · simp only [if_pos hm]
            exact ih a o s x hx
          · simp only [if_neg hm]
            cases hp : pub a.length p with
            | exn => simp [List.mem_append]; exact Or.inl hx
            | ok b =>
                cases b
                · exact ih (a ++ [p]) (o ++ [false]) s x (List.mem_append_left _ hx)
                · exact ih (a ++ [p]) (o ++ [true]) (s ++ [u]) x (List.mem_append_left _ hx)

/-- Each successful publish appends exactly one username to the success
set: the growth of posted equals the number of true outcomes recorded. -/
theorem publishLoop_posted_count (pub : Nat → PyDict → PublishResult) :
    ∀ (l : List PyDict) (a : List PyDict) (o : List Bool) (s : List PyVal),
      (publishLoop pub l a o s).posted.length + o.count true
        = (publishLoop pub l a o s).outcomes.count true + s.length := by
  intro l
  induction l with
  | nil => intro a o s; simp [publishLoop]; omega
  | cons p rest ih =>
      intro a o s
      simp only [publishLoop]
      cases hu : dictLookup p kUsername with
      | none => simp; omega
      | some u =>
          by_cases hm : u ∈ s
          · simp only [if_pos hm]
            exact ih a o s
          · simp only [if_neg hm]
            cases hp : pub a.length p with
            | exn => simp; omega
            | ok b =>
                cases b
                · have := ih (a ++ [p]) (o ++ [false]) s
                  simpa [List.count_append] using this
                · have := ih (a ++ [p]) (o ++ [true]) (s ++ [u])
                  simp [List.count_append] at this
                  simp [List.count_append]
                  omega

/-- With a publisher that never raises and records that all carry a
username, the loop finishes without an exception. -/
theorem publishLoop_no_raise (pub : Nat → PyDict → PublishResult)
    (hnr : ∀ n p, pub n p ≠ PublishResult.exn) :
    ∀ (l : List PyDict) (a : List PyDict) (o : List Bool) (s : List PyVal),
      (∀ p ∈ l, (dictLookup p kUsername).isSome) →
      (publishLoop pub l a o s).raised = false := by
  intro l
  induction l with
  | nil => intro a o s _; simp [publishLoop]
  | cons p rest ih =>
      intro a o s h
      have hp : (dictLookup p kUsername).isSome := h p (by simp)
      have hrest : ∀ q ∈ rest, (dictLookup q kUsername).isSome := by
        intro q hq; exact h q (by simp [hq])
      simp only [publishLoop]
      cases hu : dictLookup p kUsername with
      | none => rw [hu] at hp; simp at hp
      | some u =>
          by_cases hm : u ∈ s
          · simp only [if_pos hm]
            exact ih a o s hrest
          · simp only [if_neg hm]
            cases hpub : pub a.length p with
            | exn => exact absurd hpub (hnr a.length p)
            | ok b =>
                cases b
                · exact ih (a ++ [p]) (o ++ [false]) s hrest
                · exact ih (a ++ [p]) (o ++ [true]) (s ++ [u]) hrest

/-- With a publisher that never raises, usernames present and pairwise
distinct, and no username already in the success set, every profile of the
list is attempted, in order. -/
theorem publishLoop_attempts_all (pub : Nat → PyDict → PublishResult)
    (hnr : ∀ n p, pub n p ≠ PublishResult.exn) :
    ∀ (l : List PyDict) (a : List PyDict) (o : List Bool) (s : List PyVal),
      (∀ p ∈ l, (dictLookup p kUsername).isSome) →
      (l.map (fun p => dictLookup p kUsername)).Nodup →
      (∀ p ∈ l, ∀ u, dictLookup p kUsername = some u → u ∉ s) →
      (publishLoop pub l a o s).attempts = a ++ l := by
  intro l
  induction l with
  | nil => intro a o s _ _ _; simp [publishLoop]
  | cons p rest ih =>
      intro a o s hsome hnd hfresh
      have hp : (dictLookup p kUsername).isSome := hsome p (by simp)
      cases hu : dictLookup p kUsername with
      | none => rw [hu] at hp; simp at hp
      | some u =>
          have hrestsome : ∀ q ∈ rest, (dictLookup q kUsername).isSome := by
            intro q hq; exact hsome q (by simp [hq])
          have hnd' : (∀ x ∈ rest, ¬ dictLookup x kUsername = some u)
              ∧ (rest.map (fun q => dictLookup q kUsername)).Nodup := by
            simpa [hu] using hnd
          have hndrest := hnd'.2
          have hnotu := hnd'.1
          have hu_fresh : u ∉ s := hfresh p (by simp) u hu
          simp only [publishLoop]
          rw [hu]
          simp only [if_neg hu_fresh]
          cases hpub : pub a.length p with
          | exn => exact absurd hpub (hnr a.length p)
          | ok b =>
              cases b
              · have hfrest : ∀ q ∈ rest, ∀ v, dictLookup q kUsername = some v → v ∉ s := by
                  intro q hq v hv; exact hfresh q (by simp [hq]) v hv
                show (publishLoop pub rest (a ++ [p]) (o ++ [false]) s).attempts
                  = a ++ p :: rest
                rw [ih (a ++ [p]) (o ++ [false]) s hrestsome hndrest hfrest]
                simp
              · have hfrest : ∀ q ∈ rest, ∀ v, dictLookup q kUsername = some v →
                    v ∉ s ++ [u] := by
                  intro q hq v hv
                  have h1 : v ∉ s := hfresh q (by simp [hq]) v hv
                  have h2 : v ≠ u := by
                    intro he; exact hnotu q hq (he ▸ hv)
                  simp [h1, h2]
                show (publishLoop pub rest (a ++ [p]) (o ++ [true]) (s ++ [u])).attempts
                  = a ++ p :: rest
                rw [ih (a ++ [p]) (o ++ [true]) (s ++ [u]) hrestsome hndrest hfrest]
                simp

/-- C2: if the publish token or the destination id is absent from the
environment, the orchestrator run makes zero calls to the scraper and zero
publish attempts, and returns cleanly without raising. -/
theorem abort_on_missing_config_no_calls (env : String → Option String)
    (sessionsOk : Bool) (feed : List FeedItem) (pub : Nat → PyDict → PublishResult)
    (h : env kBotToken = none ∨ env kChannelId = none) :
    run_scraper_and_poster env sessionsOk feed pub = RunResult.mk 0 [] [] false := by
  unfold run_scraper_and_poster
  rcases h with h | h
  · simp [h]
  · by_cases hb : env kBotToken = none
    · simp [hb]
    · simp [hb, h]

/-- Witness for C2: an environment with nothing set at all. -/
theorem abort_on_missing_config_no_calls_witness :
    (envEmpty kBotToken = none ∨ envEmpty kChannelId = none) ∧
    run_scraper_and_poster envEmpty true [FeedItem.video authorA] pubAlwaysTrue
      = RunResult.mk 0 [] [] false :=
  ⟨Or.inl rfl, abort_on_missing_config_no_calls _ _ _ _ (Or.inl rfl)⟩

/-- Counterexample to C3 as stated: with a publisher that raises on the
first profile, the loop aborts — the second profile is never attempted and
the exception escapes, contrary to the claim that a raising publish
attempt never aborts the loop. -/
theorem publish_exn_aborts_loop_ce :
    profU2 ∉ (publishLoop pubAlwaysExn [profU1, profU2] [] [] []).attempts
      ∧ (publishLoop pubAlwaysExn [profU1, profU2] [] [] []).raised = true := by
  decide

/-- C3 as amended: a publish attempt that merely returns false never
aborts the loop.  With a publisher that never raises, and filtered records
carrying pairwise-distinct usernames, every profile is attempted in order,
no exception escapes, and the final reported count (the size of the
success set) equals the number of successful publish calls. -/
theorem publish_false_never_aborts (pub : Nat → PyDict → PublishResult)
    (ps : List PyDict)
    (hnr : ∀ n p, pub n p ≠ PublishResult.exn)
    (hu : ∀ p ∈ ps, (dictLookup p kUsername).isSome)
    (hnd : (ps.map (fun p => dictLookup p kUsername)).Nodup) :
    (publishLoop pub ps [] [] []).raised = false
      ∧ (publishLoop pub ps [] [] []).attempts = ps
      ∧ (publishLoop pub ps [] [] []).posted.length
          = (publishLoop pub ps [] [] []).outcomes.count true := by
  refine ⟨publishLoop_no_raise pub hnr ps [] [] [] hu, ?_, ?_⟩
  · have := publishLoop_attempts_all pub hnr ps [] [] [] hu hnd (by simp)
    simpa using this
  · have := publishLoop_posted_count pub ps [] [] []
    simpa using this

/-- Witness for C3 (amended) at the spec's own scenario: two distinct
profiles, the publisher fails on the first call and succeeds on the
second. -/
theorem publish_false_never_aborts_witness :
    (∀ n p, pubFailThenOk n p ≠ PublishResult.exn) ∧
    (∀ p ∈ [profU1, profU2], (dictLookup p kUsername).isSome) ∧
    (([profU1, profU2].map (fun p => dictLookup p kUsername)).Nodup) ∧
    ((publishLoop pubFailThenOk [profU1, profU2] [] [] []).raised = false
      ∧ (publishLoop pubFailThenOk [profU1, profU2] [] [] []).attempts = [profU1, profU2]
      ∧ (publishLoop pubFailThenOk [profU1, profU2] [] [] []).posted.length
          = (publishLoop pubFailThenOk [profU1, profU2] [] [] []).outcomes.count true) :=
  ⟨fun n p => by simp [pubFailThenOk], by decide, by decide,
    publish_false_never_aborts pubFailThenOk [profU1, profU2]
      (fun n p => by simp [pubFailThenOk]) (by decide) (by decide)⟩

/-- C4: in the publish loop, an occurrence of a profile is skipped without
a publish attempt exactly when its username is already in the accumulated
success set: if it is, the run is identical to the run without that
occurrence; if it is not, that profile is attempted. -/
theorem skip_iff_username_posted (pub : Nat → PyDict → PublishResult)
    (l₁ l₂ : List PyDict) (p : PyDict) (u : PyVal)
    (hu : dictLookup p kUsername = some u)
    (h1 : (publishLoop pub l₁ [] [] []).raised = false) :
    (u ∈ (publishLoop pub l₁ [] [] []).posted →
        publishLoop pub (l₁ ++ p :: l₂) [] [] [] = publishLoop pub (l₁ ++ l₂) [] [] [])
      ∧ (u ∉ (publishLoop pub l₁ [] [] []).posted →
        p ∈ (publishLoop pub (l₁ ++ p :: l₂) [] [] []).attempts) := by
  rw [publishLoop_append pub l₁ (p :: l₂) [] [] [], publishLoop_append pub l₁ l₂ [] [] []]
  rw [h1]
  simp only [Bool.false_eq_true, if_false]
  constructor
  · intro hmem
    simp only [publishLoop, hu, if_pos hmem]
  · intro hmem
    simp only [publishLoop, hu, if_neg hmem]
    cases hpub : pub (publishLoop pub l₁ [] [] []).attempts.length p with
    | exn => simp
    | ok b =>
        cases b
        · exact publishLoop_attempts_mono pub l₂ _ _ _ p (by simp)
        · exact publishLoop_attempts_mono pub l₂ _ _ _ p (by simp)

/-- Witness for C4: after u1 is published successfully, a second record
with username u1 is skipped (the run equals the run without it), while a
fresh username u2 is attempted. -/
theorem skip_iff_username_posted_witness :
    dictLookup profU1b kUsername = some (PyVal.vStr "u1") ∧
    (publishLoop pubAlwaysTrue [profU1] [] [] []).raised = false ∧
    ((PyVal.vStr "u1" ∈ (publishLoop pubAlwaysTrue [profU1] [] [] []).posted →
        publishLoop pubAlwaysTrue ([profU1] ++ profU1b :: [profU2]) [] [] []
          = publishLoop pubAlwaysTrue ([profU1] ++ [profU2]) [] [] [])
      ∧ (PyVal.vStr "u1" ∉ (publishLoop pubAlwaysTrue [profU1] [] [] []).posted →
        profU1b ∈ (publishLoop pubAlwaysTrue ([profU1] ++ profU1b :: [profU2]) [] [] []).attempts)) :=
  ⟨by decide, by decide,
    skip_iff_username_posted pubAlwaysTrue [profU1] [profU2] profU1b
      (PyVal.vStr "u1") (by decide) (by decide)⟩

/-! ## Lemmas about the scraper loop -/

/-- A first-occurrence witness survives extending the feed on the right. -/
theorem firstOccAt_append (feed g : List FeedItem) (kp : PyVal × PyDict)
    (h : firstOccAt feed kp) : firstOccAt (feed ++ g) kp := by
  obtain ⟨l₁, a, l₂, hfeed, hpid, htr, hval, hfirst⟩ := h
  exact ⟨l₁, a, l₂ ++ g, by rw [hfeed]; simp, hpid, htr, hval, hfirst⟩

/-- The id of an extracted profile record is the dict key it is stored
under. -/
theorem profileData_id (pid : PyVal) (a : PyDict) :
    dictLookup (profileData pid a) kId = some pid := by
  rfl

/-- Every entry of the unique_profiles dict after running the loop stems
from the first video of the feed carrying its (truthy) id: inserted
entries are first occurrences, relative to an invariant-carrying prefix
already consumed. -/
theorem scrapeBody_firstOcc (count : Nat) :
    ∀ (rest pre : List FeedItem) (ups : List (PyVal × PyDict)),
      (∀ b, FeedItem.video b ∈ pre → truthy (profileId b) = true → profileId b ∈ keys ups) →
      (∀ kp ∈ ups, firstOccAt pre kp) →
      ∀ kp ∈ (scrapeBody count rest ups).1, firstOccAt (pre ++ rest) kp := by
  intro rest
  induction rest with
  | nil =>
      intro pre ups _ h2 kp hkp
      simp only [scrapeBody] at hkp
      simpa using h2 kp hkp
  | cons it rest' ih =>
      intro pre ups h1 h2 kp hkp
      cases it with
      | raiseExc =>
          simp only [scrapeBody] at hkp
          exact firstOccAt_append pre _ kp (h2 kp hkp)
      | video author =>
          have hstep : scrapeBody count (FeedItem.video author :: rest') ups =
              if count ≤ (if truthy (profileId author) = true
                    ∧ profileId author ∉ keys ups then
                  ups ++ [(profileId author, profileData (profileId author) author)]
                else ups).length then
                ((if truthy (profileId author) = true ∧ profileId author ∉ keys ups then
                  ups ++ [(profileId author, profileData (profileId author) author)]
                else ups), false)
              else scrapeBody count rest'
                (if truthy (profileId author) = true ∧ profileId author ∉ keys ups then
                  ups ++ [(profileId author, profileData (profileId author) author)]
                else ups) := by
            simp only [scrapeBody]
          rw [hstep] at hkp
          set ups' := (if truthy (profileId author) = true ∧ profileId author ∉ keys ups then
              ups ++ [(profileId author, profileData (profileId author) author)]
            else ups) with hups'
          have h1' : ∀ b, FeedItem.video b ∈ pre ++ [FeedItem.video author] →
              truthy (profileId b) = true → profileId b ∈ keys ups' := by
            intro b hb htb
            have hsub : profileId b ∈ keys ups → profileId b ∈ keys ups' := by
              intro hin
              rw [hups']
              by_cases hg : truthy (profileId author) = true ∧ profileId author ∉ keys ups
              · rw [if_pos hg]; simp [keys] at hin ⊢; exact Or.inl hin
              · rwa [if_neg hg]
            rcases List.mem_append.mp hb with hb | hb
            · exact hsub (h1 b hb htb)
            · have hba : b = author := by simpa using hb
              subst hba
              rw [hups']
              by_cases hg : truthy (profileId b) = true ∧ profileId b ∉ keys ups
              · rw [if_pos hg]; simp [keys]
              · rw [if_neg hg]
                rcases Decidable.not_and_iff_or_not.mp hg with hng | hng
                · exact absurd htb hng
                · exact Decidable.not_not.mp hng
          have h2' : ∀ kp ∈ ups', firstOccAt (pre ++ [FeedItem.video author]) kp := by
            intro kp hkp'
            rw [hups'] at hkp'
            by_cases hg : truthy (profileId author) = true ∧ profileId author ∉ keys ups
            · rw [if_pos hg] at hkp'
              rcases List.mem_append.mp hkp' with hold | hnew
              · exact firstOccAt_append pre _ kp (h2 kp hold)
              · have hkpe : kp = (profileId author, profileData (profileId author) author) := by
                  simpa using hnew
                subst hkpe
                refine ⟨pre, author, [], rfl, rfl, hg.1, rfl, ?_⟩
                intro b hb heq
                have htb : truthy (profileId b) = true := by rw [heq]; exact hg.1
                have hmem := h1 b hb htb
                rw [heq] at hmem
                exact hg.2 hmem
            · rw [if_neg hg] at hkp'
              exact firstOccAt_append pre _ kp (h2 kp hkp')
          by_cases hbreak : count ≤ ups'.length
          · rw [if_pos hbreak] at hkp
            have hfo := h2' kp hkp
            have hext := firstOccAt_append (pre ++ [FeedItem.video author]) rest' kp hfo
            simpa using hext
          · rw [if_neg hbreak] at hkp
            have := ih (pre ++ [FeedItem.video author]) ups' h1' h2' kp hkp
            simpa using this

/-- One step of scrapeBody on a video, phrased with scrapeStep. -/
theorem scrapeBody_cons_video (count : Nat) (author : PyDict) (rest : List FeedItem)
    (ups : List (PyVal × PyDict)) :
    scrapeBody count (FeedItem.video author :: rest) ups =
      if count ≤ (scrapeStep author ups).length then (scrapeStep author ups, false)
      else scrapeBody count rest (scrapeStep author ups) := by
  simp only [scrapeBody, scrapeStep]

/-- The keys of unique_profiles stay pairwise distinct: an id is inserted
only when it is not yet a key. -/
theorem scrapeBody_keys_nodup (count : Nat) :
    ∀ (rest : List FeedItem) (ups : List (PyVal × PyDict)),
      (keys ups).Nodup → (keys (scrapeBody count rest ups).1).Nodup := by
  intro rest
  induction rest with
  | nil => intro ups h; simpa [scrapeBody] using h
  | cons it rest' ih =>
      intro ups h
      cases it with
      | raiseExc => simpa [scrapeBody] using h
      | video author =>
          have h' : (keys (scrapeStep author ups)).Nodup := by
            unfold scrapeStep
            by_cases hg : truthy (profileId author) = true ∧ profileId author ∉ keys ups
            · rw [if_pos hg]
              have hkeq : keys (ups ++ [(profileId author, profileData (profileId author) author)])
                  = keys ups ++ [profileId author] := by simp [keys]
              rw [hkeq]
              simp [List.nodup_append, h, hg.2]
            · rwa [if_neg hg]
          rw [scrapeBody_cons_video]
          by_cases hbreak : count ≤ (scrapeStep author ups).length
          · rw [if_pos hbreak]; exact h'
          · rw [if_neg hbreak]; exact ih _ h'

/-- While the dict is still below count, the loop never lets it exceed
count: at most one entry is added per step and the loop stops at count. -/
theorem scrapeBody_length_le (count : Nat) :
    ∀ (rest : List FeedItem) (ups : List (PyVal × PyDict)),
      ups.length < count → (scrapeBody count rest ups).1.length ≤ count := by
  intro rest
  induction rest with
  | nil => intro ups h; simp only [scrapeBody]; omega
  | cons it rest' ih =>
      intro ups h
      cases it with
      | raiseExc => simp only [scrapeBody]; omega
      | video author =>
          have hlen : (scrapeStep author ups).length ≤ ups.length + 1 := by
            unfold scrapeStep
            by_cases hg : truthy (profileId author) = true ∧ profileId author ∉ keys ups
            · rw [if_pos hg]; simp
            · rw [if_neg hg]; omega
          rw [scrapeBody_cons_video]
          by_cases hbreak : count ≤ (scrapeStep author ups).length
          · rw [if_pos hbreak]
            show (scrapeStep author ups).length ≤ count
            omega
          · rw [if_neg hbreak]
            exact ih _ (by omega)

/-- The loop stops at the first raised exception: the collected dict is
the one obtained from the longest video-only front of the feed. -/
theorem scrapeBody_takeWhile (count : Nat) :
    ∀ (feed : List FeedItem) (ups : List (PyVal × PyDict)),
      (scrapeBody count feed ups).1 = (scrapeBody count (feed.takeWhile isVideo) ups).1 := by
  intro feed
  induction feed with
  | nil => intro ups; rfl
  | cons it rest ih =>
      intro ups
      cases it with
      | raiseExc => simp [scrapeBody, List.takeWhile_cons, isVideo]
      | video author =>
          have ht : (FeedItem.video author :: rest).takeWhile isVideo
              = FeedItem.video author :: rest.takeWhile isVideo := by
            simp [List.takeWhile_cons, isVideo]
          rw [ht, scrapeBody_cons_video, scrapeBody_cons_video]
          by_cases hbreak : count ≤ (scrapeStep author ups).length
          · rw [if_pos hbreak, if_pos hbreak]
          · rw [if_neg hbreak, if_neg hbreak]
            exact ih _

/-- C5 is a code bug: post_profile_to_discord promises (docstring and
spec) True only on success and False on a missing or inaccessible
destination and on permission errors, but whenever bot.start completes —
which it does after on_ready swallows those errors and closes the bot —
the function returns True.  Evaluated here at two failing worlds: the
destination channel cannot be resolved, and thread creation is
forbidden. -/
theorem publisher_true_without_send :
    (post_profile_to_discord envChannelMissing).retval = true
      ∧ (post_profile_to_discord envChannelMissing).messageSent = false
      ∧ (post_profile_to_discord envForbidden).retval = true
      ∧ (post_profile_to_discord envForbidden).messageSent = false := by
  decide

/-- Counterexample to C6 as stated: an exception raised after one profile
has been collected does not lead to an empty result — the scraper returns
the partially collected, non-empty list. -/
theorem scraper_partial_after_exn_ce :
    get_trending_profiles true [FeedItem.video authorA, FeedItem.raiseExc] 50 ≠ [] := by
  decide

/-- C6 as amended: the exception is caught inside get_trending_profiles
and never propagated — the function always returns the profiles collected
before the first raised exception (the video-only front of the feed), and
returns the empty list when the failure precedes any collection (in
particular when session creation itself fails). -/
theorem scraper_catch_returns_collected (sessionsOk : Bool) (feed : List FeedItem)
    (count : Nat) :
    get_trending_profiles sessionsOk feed count
        = get_trending_profiles sessionsOk (feed.takeWhile isVideo) count
      ∧ get_trending_profiles false feed count = [] := by
  constructor
  · cases sessionsOk with
    | false => rfl
    | true =>
        unfold get_trending_profiles
        simp only [if_pos rfl]
        rw [scrapeBody_takeWhile count feed []]
  · rfl

/-- Counterexample to C9 as stated: with target_count = 0 and a nonempty
feed, the break check runs only after the first insertion, so one record
is returned — more than target_count. -/
theorem scraper_count_zero_exceeds_ce :
    ¬ ((get_trending_profiles true [FeedItem.video authorA] 0).length ≤ 0) := by
  decide

/-- C9 as amended: for every feed and every target_count ≥ 1 the scraper
returns records with pairwise-distinct ids, at most target_count of them,
and each returned record is the extraction of the first video in the feed
carrying its id (first-seen wins).  (At target_count = 0 the break check
runs only after an insertion, so up to one record can still be
returned.) -/
theorem scraper_dedup_first_seen_bounded (sessionsOk : Bool) (feed : List FeedItem)
    (count : Nat) (hc : 1 ≤ count) :
    ((get_trending_profiles sessionsOk feed count).map (fun p => dictLookup p kId)).Nodup
      ∧ (get_trending_profiles sessionsOk feed count).length ≤ count
      ∧ ∀ p ∈ get_trending_profiles sessionsOk feed count,
          ∃ l₁ a l₂, feed = l₁ ++ FeedItem.video a :: l₂
            ∧ dictLookup p kId = some (profileId a)
            ∧ p = profileData (profileId a) a
            ∧ ∀ b, FeedItem.video b ∈ l₁ → profileId b ≠ profileId a := by
  cases sessionsOk with
  | false =>
      refine ⟨by simp [get_trending_profiles], by simp [get_trending_profiles], ?_⟩
      intro p hp
      simp [get_trending_profiles] at hp
  | true =>
      have hout : get_trending_profiles true feed count
          = ((scrapeBody count feed []).1).map Prod.snd := rfl
      have hfo : ∀ kp ∈ (scrapeBody count feed []).1, firstOccAt feed kp := by
        have := scrapeBody_firstOcc count feed [] []
          (by intro b hb _; simp at hb) (by intro kp hkp; simp at hkp)
        simpa using this
      have hid : ∀ kp ∈ (scrapeBody count feed []).1,
          dictLookup kp.2 kId = some kp.1 := by
        intro kp hkp
        obtain ⟨l₁, a, l₂, _, _, _, hval, _⟩ := hfo kp hkp
        rw [hval]
        exact profileData_id kp.1 a
      refine ⟨?_, ?_, ?_⟩
      · rw [hout, List.map_map]
        have hcongr : (scrapeBody count feed []).1.map ((fun p => dictLookup p kId) ∘ Prod.snd)
            = (scrapeBody count feed []).1.map (fun kp => some kp.1) := by
          apply List.map_congr_left
          intro kp hkp
          exact hid kp hkp
        rw [hcongr]
        have hkeys : (keys (scrapeBody count feed []).1).Nodup :=
          scrapeBody_keys_nodup count feed [] (by simp [keys])
        have : ((keys (scrapeBody count feed []).1).map some).Nodup :=
          hkeys.map (fun x y h => Option.some.inj h)
        simpa [keys, List.map_map] using this
      · rw [hout]
        have := scrapeBody_length_le count feed [] (by simpa using hc)
        simpa using this
      · intro p hp
        rw [hout] at hp
        obtain ⟨kp, hkp, hkpeq⟩ := List.mem_map.mp hp
        obtain ⟨l₁, a, l₂, hfeed, hpid, htr, hval, hfirst⟩ := hfo kp hkp
        refine ⟨l₁, a, l₂, hfeed, ?_, ?_, ?_⟩
        · rw [← hkpeq, hid kp hkp, hpid]
        · rw [← hkpeq, hval, hpid]
        · intro b hb
          rw [hpid]
          exact hfirst b hb

/-- Witness for C9 (amended) at a concrete input: one video, target 1. -/
theorem scraper_dedup_first_seen_bounded_witness :
    (1 : Nat) ≤ 1 ∧
    (((get_trending_profiles true [FeedItem.video authorA] 1).map
        (fun p => dictLookup p kId)).Nodup
      ∧ (get_trending_profiles true [FeedItem.video authorA] 1).length ≤ 1
      ∧ ∀ p ∈ get_trending_profiles true [FeedItem.video authorA] 1,
          ∃ l₁ a l₂, [FeedItem.video authorA] = l₁ ++ FeedItem.video a :: l₂
            ∧ dictLookup p kId = some (profileId a)
            ∧ p = profileData (profileId a) a
            ∧ ∀ b, FeedItem.video b ∈ l₁ → profileId b ≠ profileId a) :=
  ⟨by decide, scraper_dedup_first_seen_bounded true [FeedItem.video authorA] 1 (by decide)⟩

/-- C10: every record the scraper returns carries a truthy id, and stems
from a video whose author had a truthy id or uniqueId; an author with
neither contributes no record at all. -/
theorem scraper_ids_truthy (sessionsOk : Bool) (feed : List FeedItem) (count : Nat) :
    ∀ p ∈ get_trending_profiles sessionsOk feed count,
      truthy (dictGet p kId) = true
        ∧ ∃ a, FeedItem.video a ∈ feed ∧ truthy (profileId a) = true
            ∧ p = profileData (profileId a) a := by
  cases sessionsOk with
  | false =>
      intro p hp
      simp [get_trending_profiles] at hp
  | true =>
      intro p hp
      have hout : get_trending_profiles true feed count
          = ((scrapeBody count feed []).1).map Prod.snd := rfl
      rw [hout] at hp
      obtain ⟨kp, hkp, hkpeq⟩ := List.mem_map.mp hp
      have hfo : firstOccAt feed kp := by
        have := scrapeBody_firstOcc count feed [] []
          (by intro b hb _; simp at hb) (by intro kp2 hkp2; simp at hkp2)
        simpa using this kp hkp
      obtain ⟨l₁, a, l₂, hfeed, hpid, htr, hval, _⟩ := hfo
      constructor
      · rw [← hkpeq, hval]
        have : dictGet (profileData kp.1 a) kId = kp.1 := by
          unfold dictGet
          rw [profileData_id]
          rfl
        rw [this]
        exact htr
      · refine ⟨a, ?_, ?_, ?_⟩
        · rw [hfeed]; simp
        · rw [hpid]; exact htr
        · rw [← hkpeq, hval, hpid]

/-- Witness for C10: the record extracted from authorA is in the output
and satisfies the property. -/
theorem scraper_ids_truthy_witness :
    profA ∈ get_trending_profiles true [FeedItem.video authorA] 30
      ∧ (truthy (dictGet profA kId) = true
        ∧ ∃ a, FeedItem.video a ∈ [FeedItem.video authorA]
            ∧ truthy (profileId a) = true
            ∧ profA = profileData (profileId a) a) :=
  ⟨by decide, scraper_ids_truthy true [FeedItem.video authorA] 30 profA (by decide)⟩

end TikTokDiscord
